import Mathlib

/-!
Verification of the Google Trends fetcher (`google_trends.py`).

The development shallowly embeds the two components of the program:

* `DateToISOString` — the date normalizer, embedding the three
  `strptime` attempts (`%b %d %Y`, `%b %Y`, `%Y`) and the
  `strftime('%Y-%m-%d')` output format;
* `GetQueryVolumes` — the batched fetch-merge-tabulate routine, with the
  remote service modelled as a pure function from requests to responses
  and the observable effects (service construction, remote requests,
  rate-limit sleeps) recorded in a trace.
-/

set_option maxRecDepth 4000

/-! ## Date normalization (`DateToISOString`) -/

/-- The fixed month abbreviations recognized by `%b` in the C locale,
lowercased (Python `strptime` matches them case-insensitively). -/
def monthNames : List String :=
  ["jan", "feb", "mar", "apr", "may", "jun",
   "jul", "aug", "sep", "oct", "nov", "dec"]

/-- Month number (1–12) of a lowercased three-letter abbreviation. -/
def monthOfAbbrev (s : String) : Option Nat :=
  match monthNames.findIdx? (fun t => t == s) with
  | some i => some (i + 1)
  | none => none

/-- Match `%b`: three letters forming a month abbreviation, case
insensitive.  Returns the month number and the remaining characters. -/
def parseMonth : List Char → Option (Nat × List Char)
  | c1 :: c2 :: c3 :: rest =>
    match monthOfAbbrev (String.mk [c1.toLower, c2.toLower, c3.toLower]) with
    | some m => some (m, rest)
    | none => none
  | _ => none

/-- Match the `\s+` that a blank in a `strptime` format compiles to:
at least one whitespace character, consumed greedily. -/
def skipSpaces : List Char → Option (List Char)
  | c :: rest =>
    if c.isWhitespace then some (rest.dropWhile Char.isWhitespace) else none
  | [] => none

/-- Numeric value of a decimal digit character. -/
def digitVal (c : Char) : Nat := c.toNat - 48

/-- Match the two-digit alternatives of the `%d` pattern
`3[01]|[12]\d|0[1-9]` (tried before the one-digit alternative,
mirroring the regex alternation order). -/
def dayTwoDigits : List Char → Option (Nat × List Char)
  | a :: b :: rest =>
    if a = '3' ∧ (b = '0' ∨ b = '1') then some (30 + digitVal b, rest)
    else if (a = '1' ∨ a = '2') ∧ b.isDigit then
      some (digitVal a * 10 + digitVal b, rest)
    else if a = '0' ∧ b.isDigit ∧ b ≠ '0' then some (digitVal b, rest)
    else none
  | _ => none

/-- Match the one-digit alternative `[1-9]` of the `%d` pattern. -/
def dayOneDigit : List Char → Option (Nat × List Char)
  | a :: rest =>
    if a.isDigit ∧ a ≠ '0' then some (digitVal a, rest) else none
  | [] => none

/-- Match `%Y`: exactly four decimal digits. -/
def yearFourDigits : List Char → Option (Nat × List Char)
  | a :: b :: c :: d :: rest =>
    if a.isDigit ∧ b.isDigit ∧ c.isDigit ∧ d.isDigit then
      some (digitVal a * 1000 + digitVal b * 100 + digitVal c * 10 + digitVal d,
            rest)
    else none
  | _ => none

/-- Gregorian leap-year test, as in Python's `datetime`. -/
def isLeapYear (y : Nat) : Bool :=
  y % 4 = 0 && (y % 100 ≠ 0 || y % 400 = 0)

/-- Number of days in a month, as validated by `datetime`'s constructor. -/
def daysInMonth (y m : Nat) : Nat :=
  if m = 2 then (if isLeapYear y then 29 else 28)
  else if m = 4 ∨ m = 6 ∨ m = 9 ∨ m = 11 then 30
  else 31

/-- Finish the `%b %d %Y` parse after the day: whitespace, a four-digit
year, end of input, and the calendar validation performed by the
`datetime` constructor (year at least 1, day within the month). -/
def finishFullDate (m d : Nat) (cs : List Char) : Option (Nat × Nat × Nat) :=
  match skipSpaces cs with
  | none => none
  | some r1 =>
    match yearFourDigits r1 with
    | none => none
    | some (y, r2) =>
      if r2 = [] ∧ 1 ≤ y ∧ d ≤ daysInMonth y m then some (y, m, d) else none

/-- Embedding of `datetime.strptime(s, '%b %d %Y')`: month abbreviation,
whitespace, day (two-digit alternatives preferred over the one-digit
one), whitespace, four-digit year, whole string consumed, calendar
validation.  Returns `(year, month, day)`. -/
def parseFullDate (cs : List Char) : Option (Nat × Nat × Nat) :=
  match parseMonth cs with
  | none => none
  | some (m, r1) =>
    match skipSpaces r1 with
    | none => none
    | some r2 =>
      match dayTwoDigits r2 with
      | some (d, r3) =>
        match finishFullDate m d r3 with
        | some res => some res
        | none =>
          match dayOneDigit r2 with
          | some (d', r3') => finishFullDate m d' r3'
          | none => none
      | none =>
        match dayOneDigit r2 with
        | some (d', r3') => finishFullDate m d' r3'
        | none => none

/-- Embedding of `datetime.strptime(s, '%b %Y')`: month abbreviation,
whitespace, four-digit year, whole string consumed, year at least 1.
Returns `(year, month)`; the day defaults to 1. -/
def parseMonthYear (cs : List Char) : Option (Nat × Nat) :=
  match parseMonth cs with
  | none => none
  | some (m, r1) =>
    match skipSpaces r1 with
    | none => none
    | some r2 =>
      match yearFourDigits r2 with
      | none => none
      | some (y, r3) => if r3 = [] ∧ 1 ≤ y then some (y, m) else none

/-- Embedding of `datetime.strptime(s, '%Y')`: exactly four digits,
whole string consumed, year at least 1.  Month and day default to 1. -/
def parseYear (cs : List Char) : Option Nat :=
  match yearFourDigits cs with
  | none => none
  | some (y, r1) => if r1 = [] ∧ 1 ≤ y then some y else none

/-- Left-pad the decimal representation of `n` with zeros to `width`. -/
def padNum (width n : Nat) : String :=
  String.mk (List.replicate (width - (toString n).length) '0') ++ toString n

/-- `strftime('%Y-%m-%d')`: zero-padded year, month and day. -/
def isoFormat (y m d : Nat) : String :=
  padNum 4 y ++ "-" ++ padNum 2 m ++ "-" ++ padNum 2 d

/-- The message of the `ValueError` raised when no format matches. -/
def dateErrorMsg : String :=
  "Date does not match any of %b %d %Y, %b %Y, %Y."

/-- Embedding of `DateToISOString`: try the three formats in order and
render the first successful parse as `YYYY-MM-DD`; fail with the
invalid-date-format error when all three fail. -/
def DateToISOString (datestring : String) : Except String String :=
  match parseFullDate datestring.toList with
  | some (y, m, d) => .ok (isoFormat y m d)
  | none =>
    match parseMonthYear datestring.toList with
    | some (y, m) => .ok (isoFormat y m 1)
    | none =>
      match parseYear datestring.toList with
      | some y => .ok (isoFormat y 1 1)
      | none => .error dateErrorMsg

/-! ## The fetcher (`GetQueryVolumes`) -/

/-- Module-level constants of the script. -/
def SERVER : String := "https://www.googleapis.com"

/-- The API version string. -/
def API_VERSION : String := "v1beta"

/-- Suffix of the discovery URL. -/
def DISCOVERY_URL_SUFFIX : String :=
  "/discovery/v1/apis/trends/" ++ API_VERSION ++ "/rest"

/-- The discovery URL passed to `build`. -/
def DISCOVERY_URL : String := SERVER ++ DISCOVERY_URL_SUFFIX

/-- The per-request term limit. -/
def MAX_QUERIES : Nat := 30

/-- The geography-restriction field populated in a request: exactly one
of `geoRestriction_country` / `geoRestriction_dma` /
`geoRestriction_region`, with its code. -/
inductive GeoRestriction where
  | country (code : String)
  | dma (code : String)
  | region (code : String)
deriving DecidableEq, Repr

/-- A `getTimelinesForHealth` request: the batch's terms, the date
window, the time resolution and the geography restriction. -/
structure TrendsRequest where
  terms : List String
  time_startDate : String
  time_endDate : String
  timelineResolution : String
  geoRestriction : GeoRestriction
deriving DecidableEq, Repr

/-- One observation in a response line: a free-form date string and a
numeric value. -/
structure ResponsePoint where
  date : String
  value : Int
deriving DecidableEq, Repr

/-- One line of a response: a term and its points. -/
structure ResponseLine where
  term : String
  points : List ResponsePoint
deriving DecidableEq, Repr

/-- The observable effects of a call, in order: construction of the
service object from the discovery document, execution of a remote
request, and a rate-limit sleep (in seconds). -/
inductive Effect where
  | buildService (developerKey : String) (discoveryUrl : String)
  | request (req : TrendsRequest)
  | sleep (seconds : Nat)
deriving DecidableEq, Repr

/-- A cell of the output table: Python rows mix date/header strings
with numeric values. -/
inductive Cell where
  | str (s : String)
  | num (n : Int)
deriving DecidableEq, Repr

/-- The accumulating mapping `{(query, date): count}`, as an
insertion-ordered association list with unique keys (Python `dict`). -/
abbrev TrendsDict := List ((String × String) × Int)

/-- `d[k] = v` on a Python dict: overwrite in place when the key is
present, append otherwise. -/
def dictInsert (d : TrendsDict) (k : String × String) (v : Int) : TrendsDict :=
  if d.any (fun p => p.1 == k) then
    d.map (fun p => if p.1 == k then (k, v) else p)
  else d ++ [(k, v)]

/-- `d.get(k, default)` on a Python dict. -/
def dictGet (d : TrendsDict) (k : String × String) (default : Int) : Int :=
  match d.find? (fun p => p.1 == k) with
  | some p => p.2
  | none => default

/-- `d.update(entries)`: assign each entry in order. -/
def dictUpdate (d : TrendsDict) (entries : TrendsDict) : TrendsDict :=
  entries.foldl (fun acc e => dictInsert acc e.1 e.2) d

/-- Normalize the points of one response line into
`((term, iso_date), value)` entries; the first unparseable date aborts
with its error. -/
def normPoints (term : String) :
    List ResponsePoint → Except String TrendsDict
  | [] => .ok []
  | p :: ps =>
    match DateToISOString p.date with
    | .error e => .error e
    | .ok d =>
      match normPoints term ps with
      | .error e => .error e
      | .ok rest => .ok (((term, d), p.value) :: rest)

/-- Normalize all lines of a response, in order. -/
def normLines : List ResponseLine → Except String TrendsDict
  | [] => .ok []
  | line :: rest =>
    match normPoints line.term line.points with
    | .error e => .error e
    | .ok entries =>
      match normLines rest with
      | .error e => .error e
      | .ok more => .ok (entries ++ more)

/-- The dict comprehension
`{(line['term'], DateToISOString(point['date'])): point['value'] ...}`:
normalize every point and build a fresh dict from the entries. -/
def resDict (lines : List ResponseLine) : Except String TrendsDict :=
  match normLines lines with
  | .error e => .error e
  | .ok entries => .ok (dictUpdate [] entries)

/-- The `geo_level` dispatch of the source: build the request for a
batch, populating the geography field selected by `geo_level`, or
report failure for any other level. -/
def mkRequest (geo_level : String) (terms : List String)
    (start_date end_date frequency geo : String) : Option TrendsRequest :=
  if geo_level = "country" then
    some ⟨terms, start_date, end_date, frequency, GeoRestriction.country geo⟩
  else if geo_level = "dma" then
    some ⟨terms, start_date, end_date, frequency, GeoRestriction.dma geo⟩
  else if geo_level = "region" then
    some ⟨terms, start_date, end_date, frequency, GeoRestriction.region geo⟩
  else none

/-- The message of the `ValueError` raised on a bad `geo_level`. -/
def geoErrorMsg : String :=
  "geo_type must be one of country, region or dma"

/-- The message of the `ValueError` raised when `API_KEY` is unset. -/
def apiKeyErrorMsg : String := "API_KEY not set."

/-- The fixed arguments of one call: the remote service (a pure
function from requests to responses) and the non-query parameters. -/
structure FetchEnv where
  service : TrendsRequest → List ResponseLine
  start_date : String
  end_date : String
  geo : String
  geo_level : String
  frequency : String

/-- Python `range(start, stop, step)` for a positive step. -/
def pythonRange (start stop step : Nat) : List Nat :=
  if step = 0 then []
  else (List.range ((stop - start + step - 1) / step)).map
    (fun i => start + i * step)

/-- The batch loop of `GetQueryVolumes`: for each batch start, slice
the batch, build the request (failing on a bad `geo_level`), execute it
(a `request` effect), sleep one second (a `sleep` effect), normalize
the response and merge it into the accumulating dict.  Returns the
trace of effects and the final dict or the first error. -/
def runBatches (env : FetchEnv) (queries : List String) :
    List Nat → TrendsDict → List Effect × Except String TrendsDict
  | [], dat => ([], .ok dat)
  | batch_start :: rest, dat =>
    let batch_end := min (batch_start + MAX_QUERIES) queries.length
    let query_batch := (queries.drop batch_start).take (batch_end - batch_start)
    match mkRequest env.geo_level query_batch env.start_date env.end_date
        env.frequency env.geo with
    | none => ([], .error geoErrorMsg)
    | some req =>
      match resDict (env.service req) with
      | .error e => ([Effect.request req, Effect.sleep 1], .error e)
      | .ok rd =>
        let next := runBatches env queries rest (dictUpdate dat rd)
        (Effect.request req :: Effect.sleep 1 :: next.1, next.2)

/-- The dates observed in the merged mapping, deduplicated and sorted
ascending (`sorted(list(set([x[1] for x in dat])))`). -/
def sortedDatesOf (dat : TrendsDict) : List String :=
  List.insertionSort (· ≤ ·) (dat.map (fun x => x.1.2)).dedup

/-- The final reshaping: header `['date'] + queries`, then one row per
sorted date holding `dat.get((term, date), 0)` for each term. -/
def buildTable (queries : List String) (dat : TrendsDict) : List (List Cell) :=
  (Cell.str "date" :: queries.map Cell.str) ::
    (sortedDatesOf dat).map (fun date =>
      Cell.str date ::
        queries.map (fun term => Cell.num (dictGet dat (term, date) 0)))

/-- `if not API_KEY`: the credential is missing when it is `None` or
the empty string (both falsy). -/
def apiKeyMissing : Option String → Bool
  | none => true
  | some s => s == ""

/-- Embedding of `GetQueryVolumes`.  The global `API_KEY` and the
`build` collaborator become the `api_key` and `service` parameters; the
returned pair is the trace of observable effects and the result (the
table, or the first error raised). -/
def GetQueryVolumes (api_key : Option String)
    (service : TrendsRequest → List ResponseLine)
    (queries : List String) (start_date : String) (end_date : String)
    (geo : String := "US") (geo_level : String := "country")
    (frequency : String := "week") :
    List Effect × Except String (List (List Cell)) :=
  if apiKeyMissing api_key then ([], .error apiKeyErrorMsg)
  else
    (Effect.buildService (api_key.getD "") DISCOVERY_URL ::
       (runBatches ⟨service, start_date, end_date, geo, geo_level, frequency⟩
         queries (pythonRange 0 queries.length MAX_QUERIES) []).1,
     Except.map (buildTable queries)
       (runBatches ⟨service, start_date, end_date, geo, geo_level, frequency⟩
         queries (pythonRange 0 queries.length MAX_QUERIES) []).2)

/-- The merged `(term, date) → value` mapping a call accumulates before
reshaping (empty when the run fails). -/
def mergedDict (service : TrendsRequest → List ResponseLine)
    (queries : List String) (start_date end_date geo geo_level frequency :
    String) : TrendsDict :=
  match (runBatches ⟨service, start_date, end_date, geo, geo_level, frequency⟩
      queries (pythonRange 0 queries.length MAX_QUERIES) []).2 with
  | .ok dat => dat
  | .error _ => []

/-- The remote requests appearing in an effect trace, in order. -/
def requestsOf (effects : List Effect) : List TrendsRequest :=
  effects.filterMap (fun e =>
    match e with
    | .request r => some r
    | _ => none)

/-- Whether a call's result is an error. -/
def isErrorResult (r : Except String (List (List Cell))) : Bool :=
  match r with
  | .error _ => true
  | .ok _ => false

/-- The date labelling a data row (its first cell). -/
def rowDate (row : List Cell) : String :=
  match row with
  | Cell.str s :: _ => s
  | _ => ""

/-- The request/sleep effect pairs of a sequence of executed batches. -/
def ratePairs : List TrendsRequest → List Effect
  | [] => []
  | r :: rs => Effect.request r :: Effect.sleep 1 :: ratePairs rs


/-- A 45-term query list used by the batching example. -/
def queries45 : List String := (List.range 45).map (fun i => "q" ++ toString i)

/-- A service answering every requested term with one point on
`Jan 01 2015` of value 7, used by the batching example. -/
def svc45 : TrendsRequest → List ResponseLine :=
  fun req => req.terms.map (fun t => ⟨t, [⟨"Jan 01 2015", 7⟩]⟩)

/-! ## Helper lemmas -/

theorem requestsOf_nil : requestsOf [] = [] := rfl

theorem requestsOf_cons_build (k u : String) (t : List Effect) :
    requestsOf (Effect.buildService k u :: t) = requestsOf t := rfl

theorem requestsOf_cons_request (r : TrendsRequest) (t : List Effect) :
    requestsOf (Effect.request r :: t) = r :: requestsOf t := rfl

theorem requestsOf_cons_sleep (s : Nat) (t : List Effect) :
    requestsOf (Effect.sleep s :: t) = requestsOf t := rfl

theorem mkRequest_eq_some {geo_level : String} {terms : List String}
    {sd ed fr geo : String} {r : TrendsRequest}
    (h : mkRequest geo_level terms sd ed fr geo = some r) : r.terms = terms := by
  unfold mkRequest at h
  split_ifs at h
  all_goals injection h with h2
  all_goals rw [← h2]

theorem mkRequest_eq_none {geo_level : String} {terms : List String}
    {sd ed fr geo : String}
    (h : geo_level ∉ (["country", "region", "dma"] : List String)) :
    mkRequest geo_level terms sd ed fr geo = none := by
  simp only [List.mem_cons, List.mem_singleton, not_or] at h
  unfold mkRequest
  split_ifs with h1 h2 h3 <;> simp_all

theorem normPoints_error_of_bad (term : String) :
    ∀ (points : List ResponsePoint) (p : ResponsePoint), p ∈ points →
      DateToISOString p.date = .error dateErrorMsg →
      ∃ e, normPoints term points = .error e := by
  intro points
  induction points with
  | nil => intro p hp; exact absurd hp (List.not_mem_nil p)
  | cons q rest ih =>
    intro p hp hbad
    rcases List.mem_cons.mp hp with rfl | hmem
    · exact ⟨dateErrorMsg, by simp [normPoints, hbad]⟩
    · cases hq : DateToISOString q.date with
      | error e => exact ⟨e, by simp [normPoints, hq]⟩
      | ok d =>
        obtain ⟨e, he⟩ := ih p hmem hbad
        exact ⟨e, by simp [normPoints, hq, he]⟩

theorem normLines_error_of_bad :
    ∀ (lines : List ResponseLine) (line : ResponseLine), line ∈ lines →
      (∃ p ∈ line.points, DateToISOString p.date = .error dateErrorMsg) →
      ∃ e, normLines lines = .error e := by
  intro lines
  induction lines with
  | nil => intro line hl; exact absurd hl (List.not_mem_nil line)
  | cons l rest ih =>
    intro line hl hbad
    rcases List.mem_cons.mp hl with rfl | hmem
    · obtain ⟨p, hp, hd⟩ := hbad
      obtain ⟨e, he⟩ := normPoints_error_of_bad line.term line.points p hp hd
      exact ⟨e, by simp [normLines, he]⟩
    · cases hfirst : normPoints l.term l.points with
      | error e => exact ⟨e, by simp [normLines, hfirst]⟩
      | ok entries =>
        obtain ⟨e, he⟩ := ih line hmem hbad
        exact ⟨e, by simp [normLines, hfirst, he]⟩

theorem resDict_error_of_bad {lines : List ResponseLine} {line : ResponseLine}
    (hl : line ∈ lines)
    (hbad : ∃ p ∈ line.points, DateToISOString p.date = .error dateErrorMsg) :
    ∃ e, resDict lines = .error e := by
  obtain ⟨e, he⟩ := normLines_error_of_bad lines line hl hbad
  exact ⟨e, by simp [resDict, he]⟩

theorem runBatches_trace (env : FetchEnv) (queries : List String) :
    ∀ (starts : List Nat) (dat : TrendsDict),
      ∃ rs, (runBatches env queries starts dat).1 = ratePairs rs := by
  intro starts
  induction starts with
  | nil => intro dat; exact ⟨[], rfl⟩
  | cons bs rest ih =>
    intro dat
    cases hreq : mkRequest env.geo_level
        ((queries.drop bs).take
          (min (bs + MAX_QUERIES) queries.length - bs))
        env.start_date env.end_date env.frequency env.geo with
    | none => exact ⟨[], by simp [runBatches, hreq, ratePairs]⟩
    | some req =>
      cases hres : resDict (env.service req) with
      | error e => exact ⟨[req], by simp [runBatches, hreq, hres, ratePairs]⟩
      | ok rd =>
        obtain ⟨rs, hrs⟩ := ih (dictUpdate dat rd)
        exact ⟨req :: rs, by simp [runBatches, hreq, hres, ratePairs, hrs]⟩

theorem ratePairs_sleep_after_request :
    ∀ (rs : List TrendsRequest) (i : Nat) (req : TrendsRequest),
      (ratePairs rs).get? i = some (Effect.request req) →
      (ratePairs rs).get? (i + 1) = some (Effect.sleep 1) := by
  intro rs
  induction rs with
  | nil => intro i req h; simp [ratePairs] at h
  | cons r rest ih =>
    intro i req h
    match i with
    | 0 => simp [ratePairs]
    | 1 => simp [ratePairs] at h
    | Nat.succ (Nat.succ j) =>
      have h' : (ratePairs rest).get? j = some (Effect.request req) := by
        simpa [ratePairs] using h
      have := ih j req h'
      simpa [ratePairs] using this

theorem runBatches_ok_requests (env : FetchEnv) (queries : List String) :
    ∀ (starts : List Nat) (dat dat' : TrendsDict),
      (runBatches env queries starts dat).2 = .ok dat' →
      (requestsOf (runBatches env queries starts dat).1).map
          TrendsRequest.terms =
        starts.map (fun bs =>
          (queries.drop bs).take (min (bs + MAX_QUERIES) queries.length - bs)) := by
  intro starts
  induction starts with
  | nil => intro dat dat' _; rfl
  | cons bs rest ih =>
    intro dat dat' h
    cases hreq : mkRequest env.geo_level
        ((queries.drop bs).take
          (min (bs + MAX_QUERIES) queries.length - bs))
        env.start_date env.end_date env.frequency env.geo with
    | none => simp [runBatches, hreq] at h
    | some req =>
      cases hres : resDict (env.service req) with
      | error e => simp [runBatches, hreq, hres] at h
      | ok rd =>
        have h' : (runBatches env queries rest (dictUpdate dat rd)).2 =
            .ok dat' := by
          simpa [runBatches, hreq, hres] using h
        simp only [runBatches, hreq, hres]
        simp only [requestsOf_cons_request, requestsOf_cons_sleep,
          List.map_cons]
        rw [mkRequest_eq_some hreq, ih (dictUpdate dat rd) dat' h']

theorem runBatches_error_of_bad (env : FetchEnv) (queries : List String) :
    ∀ (starts : List Nat) (dat : TrendsDict),
      (∃ bs ∈ starts, ∃ req,
        mkRequest env.geo_level
          ((queries.drop bs).take (min (bs + MAX_QUERIES) queries.length - bs))
          env.start_date env.end_date env.frequency env.geo = some req ∧
        ∃ line ∈ env.service req, ∃ p ∈ line.points,
          DateToISOString p.date = .error dateErrorMsg) →
      ∃ e, (runBatches env queries starts dat).2 = .error e := by
  intro starts
  induction starts with
  | nil =>
    intro dat h
    obtain ⟨bs, hbs, _⟩ := h
    exact absurd hbs (List.not_mem_nil bs)
  | cons b rest ih =>
    intro dat h
    cases hreq : mkRequest env.geo_level
        ((queries.drop b).take
          (min (b + MAX_QUERIES) queries.length - b))
        env.start_date env.end_date env.frequency env.geo with
    | none => exact ⟨geoErrorMsg, by simp [runBatches, hreq]⟩
    | some req =>
      cases hres : resDict (env.service req) with
      | error e => exact ⟨e, by simp [runBatches, hreq, hres]⟩
      | ok rd =>
        obtain ⟨bs, hbs, req', hreq', line, hline, p, hp, hdate⟩ := h
        rcases List.mem_cons.mp hbs with rfl | hmem
        · rw [hreq] at hreq'
          injection hreq' with hreq2
          subst hreq2
          obtain ⟨e, he⟩ := resDict_error_of_bad hline ⟨p, hp, hdate⟩
          rw [he] at hres
          exact Except.noConfusion hres
        · obtain ⟨e, he⟩ := ih (dictUpdate dat rd)
            ⟨bs, hmem, req', hreq', line, hline, p, hp, hdate⟩
          exact ⟨e, by simp [runBatches, hreq, hres, he]⟩

theorem pythonRange_length (start stop : Nat) :
    (pythonRange start stop MAX_QUERIES).length =
      (stop - start + MAX_QUERIES - 1) / MAX_QUERIES := by
  simp [pythonRange, MAX_QUERIES]

theorem pythonRange_zero_stop : pythonRange 0 0 MAX_QUERIES = [] := rfl

theorem pythonRange_cons (n : Nat) (h : 0 < n) :
    pythonRange 0 n MAX_QUERIES =
      0 :: (pythonRange 0 (n - MAX_QUERIES) MAX_QUERIES).map
        (fun bs => bs + MAX_QUERIES) := by
  have h30 : MAX_QUERIES = 30 := rfl
  have hc : (n - 0 + MAX_QUERIES - 1) / MAX_QUERIES =
      (n - MAX_QUERIES - 0 + MAX_QUERIES - 1) / MAX_QUERIES + 1 := by
    rw [h30]; omega
  unfold pythonRange
  rw [if_neg (by rw [h30]; omega), if_neg (by rw [h30]; omega), hc,
    List.range_succ_eq_map]
  simp [List.map_map, Function.comp_def, Nat.succ_mul, Nat.add_comm,
    Nat.add_assoc, Nat.add_left_comm]

theorem slices_flatten_fuel :
    ∀ (fuel : Nat) (l : List String), l.length ≤ fuel →
      ((pythonRange 0 l.length MAX_QUERIES).map (fun bs =>
        (l.drop bs).take (min (bs + MAX_QUERIES) l.length - bs))).flatten = l := by
  intro fuel
  induction fuel with
  | zero =>
    intro l hl
    have : l = [] := List.eq_nil_of_length_eq_zero (Nat.le_zero.mp hl)
    subst this
    rfl
  | succ fuel ih =>
    intro l hl
    cases hnil : l with
    | nil => rfl
    | cons a t =>
      rw [← hnil]
      have h30 : MAX_QUERIES = 30 := rfl
      have hpos : 0 < l.length := by rw [hnil]; simp
      rw [pythonRange_cons l.length hpos, List.map_cons, List.map_map,
        List.flatten_cons]
      have hhead : (l.drop 0).take (min (0 + MAX_QUERIES) l.length - 0) =
          l.take MAX_QUERIES := by
        rw [List.drop_zero, Nat.sub_zero, Nat.zero_add, List.take_eq_take]
        omega
      rw [hhead]
      have htail :
          ((pythonRange 0 (l.length - MAX_QUERIES) MAX_QUERIES).map
            ((fun bs => (l.drop bs).take (min (bs + MAX_QUERIES) l.length - bs)) ∘
              (fun bs => bs + MAX_QUERIES))).flatten = l.drop MAX_QUERIES := by
        rcases Nat.lt_or_ge l.length MAX_QUERIES with hlt | hge
        · have hz : l.length - MAX_QUERIES = 0 :=
            Nat.sub_eq_zero_of_le (Nat.le_of_lt hlt)
          rw [hz, pythonRange_zero_stop]
          simp [List.drop_eq_nil_of_le (Nat.le_of_lt hlt)]
        · have hge30 : 30 ≤ l.length := by rw [h30] at hge; exact hge
          have hlen : (l.drop MAX_QUERIES).length = l.length - MAX_QUERIES := by
            simp
          have hfuel : (l.drop MAX_QUERIES).length ≤ fuel := by
            rw [hlen, h30]; omega
          have hrec := ih (l.drop MAX_QUERIES) hfuel
          rw [hlen] at hrec
          rw [← hrec]
          congr 1
          apply List.map_congr_left
          intro bs _
          simp only [Function.comp_apply, List.drop_drop]
          have harg : min (bs + MAX_QUERIES + MAX_QUERIES) l.length -
              (bs + MAX_QUERIES) =
              min (bs + MAX_QUERIES) (l.length - MAX_QUERIES) - bs := by
            rw [h30]; omega
          rw [harg, Nat.add_comm bs MAX_QUERIES]
      rw [htail, List.take_append_drop]

theorem slices_flatten (l : List String) :
    ((pythonRange 0 l.length MAX_QUERIES).map (fun bs =>
      (l.drop bs).take (min (bs + MAX_QUERIES) l.length - bs))).flatten = l :=
  slices_flatten_fuel l.length l (Nat.le_refl _)

theorem slices_size_le (l : List String) (b : List String)
    (hb : b ∈ (pythonRange 0 l.length MAX_QUERIES).map (fun bs =>
      (l.drop bs).take (min (bs + MAX_QUERIES) l.length - bs))) :
    b.length ≤ MAX_QUERIES := by
  obtain ⟨bs, _, rfl⟩ := List.mem_map.mp hb
  rw [List.length_take]
  have : MAX_QUERIES = 30 := rfl
  omega

theorem apiKeyMissing_some {k : String} (hk : k ≠ "") :
    apiKeyMissing (some k) = false := by
  simp [apiKeyMissing, hk]

theorem GetQueryVolumes_some {k : String} (hk : k ≠ "")
    (service : TrendsRequest → List ResponseLine)
    (queries : List String) (sd ed geo gl fr : String) :
    GetQueryVolumes (some k) service queries sd ed geo gl fr =
      (Effect.buildService k DISCOVERY_URL ::
        (runBatches ⟨service, sd, ed, geo, gl, fr⟩ queries
          (pythonRange 0 queries.length MAX_QUERIES) []).1,
       Except.map (buildTable queries)
        (runBatches ⟨service, sd, ed, geo, gl, fr⟩ queries
          (pythonRange 0 queries.length MAX_QUERIES) []).2) := by
  rw [GetQueryVolumes, apiKeyMissing_some hk]
  rfl

theorem sortedDatesOf_sorted (dat : TrendsDict) :
    List.Sorted (· < ·) (sortedDatesOf dat) := by
  unfold sortedDatesOf
  have hs := List.sorted_insertionSort ((· ≤ ·) : String → String → Prop)
    ((dat.map (fun x => x.1.2)).dedup)
  have hnd := (List.perm_insertionSort ((· ≤ ·) : String → String → Prop)
    ((dat.map (fun x => x.1.2)).dedup)).nodup_iff.mpr (List.nodup_dedup _)
  exact hs.lt_of_le hnd

theorem mem_sortedDatesOf (dat : TrendsDict) (d : String) :
    d ∈ sortedDatesOf dat ↔ d ∈ dat.map (fun x => x.1.2) := by
  rw [sortedDatesOf, List.mem_insertionSort, List.mem_dedup]

/-! ## Claim theorems -/

/-- Claim C3: every input matching one of the three patterns (tried in
order: full date, month-year, year-only) is rendered as `YYYY-MM-DD`
with the numeric year, month and day of the source, the day defaulting
to 1 for month-year input and the month and day defaulting to January
1st for year-only input; in particular `Jul 04 2004 ↦ 2004-07-04`,
`Jul 2004 ↦ 2004-07-01` and `2004 ↦ 2004-01-01`. -/
theorem claim_C3 :
    (∀ (s : String) (y m d : Nat), parseFullDate s.toList = some (y, m, d) →
      DateToISOString s = .ok (isoFormat y m d)) ∧
    (∀ (s : String) (y m : Nat), parseFullDate s.toList = none →
      parseMonthYear s.toList = some (y, m) →
      DateToISOString s = .ok (isoFormat y m 1)) ∧
    (∀ (s : String) (y : Nat), parseFullDate s.toList = none →
      parseMonthYear s.toList = none → parseYear s.toList = some y →
      DateToISOString s = .ok (isoFormat y 1 1)) ∧
    DateToISOString "Jul 04 2004" = .ok "2004-07-04" ∧
    DateToISOString "Jul 2004" = .ok "2004-07-01" ∧
    DateToISOString "2004" = .ok "2004-01-01" := by
  refine ⟨?_, ?_, ?_, by rfl, by rfl, by rfl⟩
  · intro s y m d h
    have h' : parseFullDate s.data = some (y, m, d) := h
    simp [DateToISOString, h']
  · intro s y m h1 h2
    have h1' : parseFullDate s.data = none := h1
    have h2' : parseMonthYear s.data = some (y, m) := h2
    simp [DateToISOString, h1', h2']
  · intro s y h1 h2 h3
    have h1' : parseFullDate s.data = none := h1
    have h2' : parseMonthYear s.data = none := h2
    have h3' : parseYear s.data = some y := h3
    simp [DateToISOString, h1', h2', h3']

theorem claim_C3_witness :
    DateToISOString "Feb 2004" = .ok (isoFormat 2004 2 1) :=
  claim_C3.2.1 "Feb 2004" 2004 2 (by rfl) (by rfl)

/-- Claim C4: `DateToISOString` fails with the invalid-date-format
error exactly when the whole input matches none of the three patterns;
in particular `13/45/2020` fails. -/
theorem claim_C4 :
    (∀ s : String, DateToISOString s = .error dateErrorMsg ↔
      (parseFullDate s.toList = none ∧ parseMonthYear s.toList = none ∧
       parseYear s.toList = none)) ∧
    DateToISOString "13/45/2020" = .error dateErrorMsg := by
  refine ⟨?_, by rfl⟩
  intro s
  cases h1 : parseFullDate s.data with
  | some v =>
    obtain ⟨y, m, d⟩ := v
    simp [DateToISOString, String.toList, h1]
  | none =>
    cases h2 : parseMonthYear s.data with
    | some v =>
      obtain ⟨y, m⟩ := v
      simp [DateToISOString, String.toList, h1, h2]
    | none =>
      cases h3 : parseYear s.data with
      | some y => simp [DateToISOString, String.toList, h1, h2, h3]
      | none => simp [DateToISOString, String.toList, h1, h2, h3]

/-- Claim C5: with no credential configured the call returns the
configuration error with an empty effect trace — no service is built,
no request is issued, no sleep occurs. -/
theorem claim_C5 (service : TrendsRequest → List ResponseLine)
    (queries : List String) (sd ed geo gl fr : String) :
    GetQueryVolumes none service queries sd ed geo gl fr =
      ([], .error apiKeyErrorMsg) := by
  rfl

/-- Claim C10: with a configured credential and an empty queries list,
the call performs no remote request (the trace holds only the service
construction) and returns the header-only table, for every `geo_level`
value including invalid ones. -/
theorem claim_C10 (k : String) (hk : k ≠ "")
    (service : TrendsRequest → List ResponseLine) (sd ed geo gl fr : String) :
    GetQueryVolumes (some k) service [] sd ed geo gl fr =
      ([Effect.buildService k DISCOVERY_URL], .ok [[Cell.str "date"]]) := by
  rw [GetQueryVolumes_some hk]
  rfl

theorem claim_C10_witness :
    GetQueryVolumes (some "key") (fun _ => []) [] "2011-01-01" "2015-01-01"
        "US" "province" "week" =
      ([Effect.buildService "key" DISCOVERY_URL], .ok [[Cell.str "date"]]) :=
  claim_C10 "key" (by decide) (fun _ => []) "2011-01-01" "2015-01-01" "US"
    "province" "week"

/-- Claim C6 counterexample: a call with `geo_level = "province"` and an
empty queries list does not fail — the `geo_level` dispatch sits inside
the batch loop, which never runs — so the claim's universal failure
statement is false. -/
theorem claim_C6_counterexample :
    (GetQueryVolumes (some "key") (fun _ => []) [] "2011-01-01" "2015-01-01"
        "US" "province" "week").2 = .ok [[Cell.str "date"]] := by
  rfl

/-- Claim C6 (amended): with a configured credential and a nonempty
queries list, a `geo_level` outside {country, region, dma} makes the
call fail with the invalid-argument error, and no remote request
appears in the effect trace. -/
theorem claim_C6 (k : String) (service : TrendsRequest → List ResponseLine)
    (queries : List String) (sd ed geo gl fr : String)
    (hk : k ≠ "") (hq : queries ≠ [])
    (hgl : gl ∉ (["country", "region", "dma"] : List String)) :
    (GetQueryVolumes (some k) service queries sd ed geo gl fr).2 =
        .error geoErrorMsg ∧
      requestsOf (GetQueryVolumes (some k) service queries sd ed geo gl fr).1 =
        [] := by
  rw [GetQueryVolumes_some hk]
  have hpos : 0 < queries.length := List.length_pos.mpr hq
  rw [pythonRange_cons queries.length hpos]
  have hnone := @mkRequest_eq_none gl
    (List.take (min MAX_QUERIES queries.length) queries) sd ed fr geo hgl
  simp [runBatches, hnone, requestsOf_cons_build, requestsOf_nil, Except.map]

theorem claim_C6_witness :
    (GetQueryVolumes (some "key") (fun _ => []) ["flu"] "2011-01-01"
        "2015-01-01" "US" "province" "week").2 = .error geoErrorMsg ∧
      requestsOf (GetQueryVolumes (some "key") (fun _ => []) ["flu"]
        "2011-01-01" "2015-01-01" "US" "province" "week").1 = [] :=
  claim_C6 "key" (fun _ => []) ["flu"] "2011-01-01" "2015-01-01" "US"
    "province" "week" (by decide) (by decide) (by decide)

theorem GQV_ok_inv {api_key : Option String}
    {service : TrendsRequest → List ResponseLine} {queries : List String}
    {sd ed geo gl fr : String} {tbl : List (List Cell)}
    (h : (GetQueryVolumes api_key service queries sd ed geo gl fr).2 =
      .ok tbl) :
    tbl = buildTable queries (mergedDict service queries sd ed geo gl fr) := by
  cases api_key with
  | none => exact Except.noConfusion h
  | some k =>
    by_cases hk : k = ""
    · subst hk
      exact Except.noConfusion h
    · rw [GetQueryVolumes_some hk] at h
      cases hr : (runBatches ⟨service, sd, ed, geo, gl, fr⟩ queries
          (pythonRange 0 queries.length MAX_QUERIES) []).2 with
      | error e =>
        rw [hr] at h
        exact Except.noConfusion h
      | ok dat =>
        rw [hr] at h
        have hmd : mergedDict service queries sd ed geo gl fr = dat := by
          unfold mergedDict
          rw [hr]
        injection h with h2
        rw [hmd, ← h2]

/-- Claim C1 counterexample: the claim's example response carries the
raw date `2015-01-01`, which matches none of the three `strptime`
formats, so the call aborts with the invalid-date-format error instead
of returning the claimed table. -/
theorem claim_C1_counterexample :
    (GetQueryVolumes (some "key") (fun _ => [⟨"flu", [⟨"2015-01-01", 5⟩]⟩])
        ["flu", "cough"] "2011-01-01" "2015-01-01" "US" "country" "week").2 =
        .error dateErrorMsg ∧
      ¬((GetQueryVolumes (some "key")
          (fun _ => [⟨"flu", [⟨"2015-01-01", 5⟩]⟩])
          ["flu", "cough"] "2011-01-01" "2015-01-01" "US" "country"
          "week").2 =
        .ok [[Cell.str "date", Cell.str "flu", Cell.str "cough"],
             [Cell.str "2015-01-01", Cell.num 5, Cell.num 0]]) :=
  ⟨rfl, fun h => nomatch h⟩

/-- Claim C1 (amended): every successful call returns the table whose
header row is `["date"]` followed by the queries in order and whose
data rows hold, per sorted date and per term in order, the merged
mapping's value or 0 when absent; with queries `["flu","cough"]` and a
response containing only the point `("flu", "Jan 01 2015", 5)` — whose
date normalizes to `2015-01-01` — the result is exactly
`[["date","flu","cough"], ["2015-01-01", 5, 0]]`. -/
theorem claim_C1 :
    (∀ (api_key : Option String)
        (service : TrendsRequest → List ResponseLine)
        (queries : List String) (sd ed geo gl fr : String)
        (tbl : List (List Cell)),
      (GetQueryVolumes api_key service queries sd ed geo gl fr).2 = .ok tbl →
      tbl = (Cell.str "date" :: queries.map Cell.str) ::
        (sortedDatesOf (mergedDict service queries sd ed geo gl fr)).map
          (fun date => Cell.str date :: queries.map (fun term =>
            Cell.num (dictGet (mergedDict service queries sd ed geo gl fr)
              (term, date) 0)))) ∧
    (GetQueryVolumes (some "key") (fun _ => [⟨"flu", [⟨"Jan 01 2015", 5⟩]⟩])
        ["flu", "cough"] "2011-01-01" "2015-01-01" "US" "country" "week").2 =
      .ok [[Cell.str "date", Cell.str "flu", Cell.str "cough"],
           [Cell.str "2015-01-01", Cell.num 5, Cell.num 0]] := by
  constructor
  · intro api_key service queries sd ed geo gl fr tbl h
    rw [GQV_ok_inv h]
    rfl
  · rfl

theorem claim_C1_witness :
    [[Cell.str "date", Cell.str "flu"]] =
      (Cell.str "date" :: (["flu"] : List String).map Cell.str) ::
        (sortedDatesOf (mergedDict (fun _ => []) ["flu"] "2011-01-01"
          "2015-01-01" "US" "country" "week")).map (fun date =>
            Cell.str date :: (["flu"] : List String).map (fun term =>
              Cell.num (dictGet (mergedDict (fun _ => []) ["flu"] "2011-01-01"
                "2015-01-01" "US" "country" "week") (term, date) 0))) :=
  claim_C1.1 (some "key") (fun _ => []) ["flu"] "2011-01-01" "2015-01-01"
    "US" "country" "week" [[Cell.str "date", Cell.str "flu"]] (by rfl)

/-- Claim C2: the data rows of every successful call are labelled by
strictly increasing date strings (hence one row per date, ascending),
and a date labels a row exactly when it appears in the merged
mapping. -/
theorem claim_C2 (api_key : Option String)
    (service : TrendsRequest → List ResponseLine) (queries : List String)
    (sd ed geo gl fr : String) (tbl : List (List Cell)) (d : String)
    (h : (GetQueryVolumes api_key service queries sd ed geo gl fr).2 =
      .ok tbl) :
    List.Sorted (· < ·) (tbl.tail.map rowDate) ∧
      (d ∈ tbl.tail.map rowDate ↔
        d ∈ (mergedDict service queries sd ed geo gl fr).map
          (fun x => x.1.2)) := by
  rw [GQV_ok_inv h]
  have htail : (buildTable queries
      (mergedDict service queries sd ed geo gl fr)).tail.map rowDate =
      sortedDatesOf (mergedDict service queries sd ed geo gl fr) := by
    simp only [buildTable, List.tail_cons, List.map_map]
    have : (rowDate ∘ fun date => Cell.str date :: queries.map (fun term =>
        Cell.num (dictGet (mergedDict service queries sd ed geo gl fr)
          (term, date) 0))) = id := by
      funext date
      rfl
    rw [this, List.map_id]
  rw [htail]
  exact ⟨sortedDatesOf_sorted _, mem_sortedDatesOf _ d⟩

theorem claim_C2_witness :
    List.Sorted (· < ·)
        (([[Cell.str "date", Cell.str "flu"],
           [Cell.str "2015-01-01", Cell.num 5]] :
          List (List Cell)).tail.map rowDate) ∧
      ("2015-01-01" ∈ ([[Cell.str "date", Cell.str "flu"],
           [Cell.str "2015-01-01", Cell.num 5]] :
          List (List Cell)).tail.map rowDate ↔
        "2015-01-01" ∈ (mergedDict (fun _ => [⟨"flu", [⟨"Jan 01 2015", 5⟩]⟩])
          ["flu"] "2011-01-01" "2015-01-01" "US" "country" "week").map
            (fun x => x.1.2)) :=
  claim_C2 (some "key") (fun _ => [⟨"flu", [⟨"Jan 01 2015", 5⟩]⟩]) ["flu"]
    "2011-01-01" "2015-01-01" "US" "country" "week"
    [[Cell.str "date", Cell.str "flu"], [Cell.str "2015-01-01", Cell.num 5]]
    "2015-01-01" (by rfl)

theorem GQV_ok_requests_terms {api_key : Option String}
    {service : TrendsRequest → List ResponseLine} {queries : List String}
    {sd ed geo gl fr : String} {tbl : List (List Cell)}
    (h : (GetQueryVolumes api_key service queries sd ed geo gl fr).2 =
      .ok tbl) :
    (requestsOf (GetQueryVolumes api_key service queries sd ed geo gl
        fr).1).map TrendsRequest.terms =
      (pythonRange 0 queries.length MAX_QUERIES).map (fun bs =>
        (queries.drop bs).take (min (bs + MAX_QUERIES) queries.length - bs)) := by
  cases api_key with
  | none => exact Except.noConfusion h
  | some k =>
    by_cases hk : k = ""
    · subst hk
      exact Except.noConfusion h
    · rw [GetQueryVolumes_some hk] at h ⊢
      cases hr : (runBatches ⟨service, sd, ed, geo, gl, fr⟩ queries
          (pythonRange 0 queries.length MAX_QUERIES) []).2 with
      | error e =>
        rw [hr] at h
        exact Except.noConfusion h
      | ok dat =>
        rw [requestsOf_cons_build]
        exact runBatches_ok_requests ⟨service, sd, ed, geo, gl, fr⟩ queries
          (pythonRange 0 queries.length MAX_QUERIES) [] dat hr

/-- Claim C7: every successful call issues one request per consecutive
batch of at most 30 terms — the requested term lists concatenate back
to the query list, each has size at most `MAX_QUERIES`, and there are
exactly `⌈len/30⌉` requests; with 45 terms, exactly two requests carry
the first 30 and the remaining 15 terms, and both batches' values reach
the final table. -/
theorem claim_C7 :
    (∀ (api_key : Option String)
        (service : TrendsRequest → List ResponseLine)
        (queries : List String) (sd ed geo gl fr : String)
        (tbl : List (List Cell)),
      (GetQueryVolumes api_key service queries sd ed geo gl fr).2 = .ok tbl →
      ((requestsOf (GetQueryVolumes api_key service queries sd ed geo gl
          fr).1).map TrendsRequest.terms).flatten = queries ∧
      (∀ b ∈ (requestsOf (GetQueryVolumes api_key service queries sd ed geo
          gl fr).1).map TrendsRequest.terms, b.length ≤ MAX_QUERIES) ∧
      (requestsOf (GetQueryVolumes api_key service queries sd ed geo gl
          fr).1).length =
        (queries.length + MAX_QUERIES - 1) / MAX_QUERIES) ∧
    ((requestsOf (GetQueryVolumes (some "key") svc45 queries45 "2011-01-01"
        "2015-01-01" "US" "country" "week").1).map TrendsRequest.terms =
      [queries45.take 30, queries45.drop 30] ∧
     (GetQueryVolumes (some "key") svc45 queries45 "2011-01-01" "2015-01-01"
        "US" "country" "week").2 =
      .ok [Cell.str "date" :: queries45.map Cell.str,
           Cell.str "2015-01-01" :: List.replicate 45 (Cell.num 7)]) := by
  constructor
  · intro api_key service queries sd ed geo gl fr tbl h
    refine ⟨?_, ?_, ?_⟩
    · rw [GQV_ok_requests_terms h]
      exact slices_flatten queries
    · intro b hb
      rw [GQV_ok_requests_terms h] at hb
      exact slices_size_le queries b hb
    · have hlen := congrArg List.length (GQV_ok_requests_terms h)
      simp only [List.length_map] at hlen
      rw [hlen, pythonRange_length, Nat.sub_zero]
  · exact ⟨rfl, rfl⟩

theorem claim_C7_witness :
    ((requestsOf (GetQueryVolumes (some "key") (fun _ => []) ["flu"]
        "2011-01-01" "2015-01-01" "US" "country" "week").1).map
      TrendsRequest.terms).flatten = ["flu"] :=
  (claim_C7.1 (some "key") (fun _ => []) ["flu"] "2011-01-01" "2015-01-01"
    "US" "country" "week" [[Cell.str "date", Cell.str "flu"]] (by rfl)).1

/-- Claim C8 counterexample: a successful 45-term call runs two
batches, and its trace is `[build, request₁, sleep 1, request₂,
sleep 1]` — the rate-limit pause does occur between the two requests,
but one is also executed after the final batch's request, contradicting
the claim that no pause occurs there. -/
theorem claim_C8_counterexample :
    (GetQueryVolumes (some "key") svc45 queries45 "2011-01-01" "2015-01-01"
        "US" "country" "week").1 =
      [Effect.buildService "key" DISCOVERY_URL,
       Effect.request ⟨queries45.take 30, "2011-01-01", "2015-01-01", "week",
         GeoRestriction.country "US"⟩,
       Effect.sleep 1,
       Effect.request ⟨queries45.drop 30, "2011-01-01", "2015-01-01", "week",
         GeoRestriction.country "US"⟩,
       Effect.sleep 1] ∧
    (GetQueryVolumes (some "key") svc45 queries45 "2011-01-01" "2015-01-01"
        "US" "country" "week").2 =
      .ok [Cell.str "date" :: queries45.map Cell.str,
           Cell.str "2015-01-01" :: List.replicate 45 (Cell.num 7)] ∧
    (GetQueryVolumes (some "key") svc45 queries45 "2011-01-01" "2015-01-01"
        "US" "country" "week").1.getLast? = some (Effect.sleep 1) :=
  ⟨rfl, rfl, rfl⟩

/-- Claim C8 (amended): in every call's effect trace, each remote
request is immediately followed by a pause of 1 time unit — in
particular between consecutive requests, but also after the final
batch's request. -/
theorem claim_C8 (api_key : Option String)
    (service : TrendsRequest → List ResponseLine) (queries : List String)
    (sd ed geo gl fr : String) (i : Nat) (req : TrendsRequest)
    (h : (GetQueryVolumes api_key service queries sd ed geo gl fr).1.get? i =
      some (Effect.request req)) :
    (GetQueryVolumes api_key service queries sd ed geo gl fr).1.get?
      (i + 1) = some (Effect.sleep 1) := by
  by_cases hmiss : apiKeyMissing api_key = true
  · rw [GetQueryVolumes, if_pos hmiss] at h
    simp at h
  · rw [GetQueryVolumes, if_neg hmiss] at h ⊢
    obtain ⟨rs, hrs⟩ := runBatches_trace ⟨service, sd, ed, geo, gl, fr⟩
      queries (pythonRange 0 queries.length MAX_QUERIES) []
    rw [hrs] at h ⊢
    cases i with
    | zero => simp at h
    | succ j =>
      have h' : (ratePairs rs).get? j = some (Effect.request req) := by
        simpa using h
      simpa using ratePairs_sleep_after_request rs j req h'

theorem claim_C8_witness :
    (GetQueryVolumes (some "key") (fun _ => [⟨"flu", [⟨"Jan 01 2015", 5⟩]⟩])
        ["flu"] "2011-01-01" "2015-01-01" "US" "country" "week").1.get? 2 =
      some (Effect.sleep 1) :=
  claim_C8 (some "key") (fun _ => [⟨"flu", [⟨"Jan 01 2015", 5⟩]⟩]) ["flu"]
    "2011-01-01" "2015-01-01" "US" "country" "week" 1
    ⟨["flu"], "2011-01-01", "2015-01-01", "week", GeoRestriction.country "US"⟩
    (by rfl)

/-- Claim C9: a call either returns the full table built from the
merged mapping or an error and no table; a point whose date matches no
format, in any batch's response, makes the whole call fail. -/
theorem claim_C9 :
    (∀ (api_key : Option String)
        (service : TrendsRequest → List ResponseLine)
        (queries : List String) (sd ed geo gl fr : String),
      (GetQueryVolumes api_key service queries sd ed geo gl fr).2 =
          .ok (buildTable queries
            (mergedDict service queries sd ed geo gl fr)) ∨
        isErrorResult
          (GetQueryVolumes api_key service queries sd ed geo gl fr).2 =
          true) ∧
    (∀ (api_key : Option String)
        (service : TrendsRequest → List ResponseLine)
        (queries : List String) (sd ed geo gl fr : String) (bs : Nat)
        (req : TrendsRequest) (line : ResponseLine) (p : ResponsePoint),
      bs ∈ pythonRange 0 queries.length MAX_QUERIES →
      mkRequest gl
        ((queries.drop bs).take (min (bs + MAX_QUERIES) queries.length - bs))
        sd ed fr geo = some req →
      line ∈ service req →
      p ∈ line.points →
      DateToISOString p.date = .error dateErrorMsg →
      isErrorResult
        (GetQueryVolumes api_key service queries sd ed geo gl fr).2 =
        true) := by
  constructor
  · intro api_key service queries sd ed geo gl fr
    by_cases hmiss : apiKeyMissing api_key = true
    · right
      rw [GetQueryVolumes, if_pos hmiss]
      rfl
    · rw [GetQueryVolumes, if_neg hmiss]
      cases hr : (runBatches ⟨service, sd, ed, geo, gl, fr⟩ queries
          (pythonRange 0 queries.length MAX_QUERIES) []).2 with
      | error e =>
        right
        rfl
      | ok dat =>
        left
        have hmd : mergedDict service queries sd ed geo gl fr = dat := by
          unfold mergedDict
          rw [hr]
        rw [hmd]
        rfl
  · intro api_key service queries sd ed geo gl fr bs req line p hbs hreq
      hline hp hdate
    by_cases hmiss : apiKeyMissing api_key = true
    · rw [GetQueryVolumes, if_pos hmiss]
      rfl
    · rw [GetQueryVolumes, if_neg hmiss]
      obtain ⟨e, he⟩ := runBatches_error_of_bad
        ⟨service, sd, ed, geo, gl, fr⟩ queries
        (pythonRange 0 queries.length MAX_QUERIES) []
        ⟨bs, hbs, req, hreq, line, hline, p, hp, hdate⟩
      rw [he]
      rfl

theorem claim_C9_witness :
    isErrorResult (GetQueryVolumes (some "key")
        (fun _ => [⟨"flu", [⟨"2015-01-01", 5⟩]⟩]) ["flu"] "2011-01-01"
        "2015-01-01" "US" "country" "week").2 = true :=
  claim_C9.2 (some "key") (fun _ => [⟨"flu", [⟨"2015-01-01", 5⟩]⟩]) ["flu"]
    "2011-01-01" "2015-01-01" "US" "country" "week" 0
    ⟨["flu"], "2011-01-01", "2015-01-01", "week", GeoRestriction.country "US"⟩
    ⟨"flu", [⟨"2015-01-01", 5⟩]⟩ ⟨"2015-01-01", 5⟩
    (by decide) (by rfl) (by decide) (by decide) (by rfl)
